import Mathlib

set_option autoImplicit false

/-!
Verification of `packages/mui-system/src/cssVars/createCssVarsProvider.js`.

The module is shallowly embedded: JavaScript values are modelled by `JVal`
(objects keep their key insertion order, matching JS own-property order for
string keys), module-level statements become Lean functions, React effects
become pure functions from their dependencies to a list of `DomAction`s,
and the render body of `CssVarsProvider` becomes `renderCompute`.
Dependencies of the file that are not part of this repository fragment
(`cssVarsParser`, `deepmerge` from `@mui/utils`, `useCurrentColorScheme`)
are modelled from the specification; such definitions carry a
`Modelled from the spec:` doc comment.
-/

namespace MuiCssVars

/-- A model of the JavaScript runtime values this module manipulates:
`undefined`, strings, numbers (only integers occur here), plain objects
(association lists in key insertion order, the enumeration order JS
guarantees for string keys), and opaque function values tagged by a
description string. -/
inductive JVal where
  | undef : JVal
  | str : String → JVal
  | num : Int → JVal
  | obj : List (String × JVal) → JVal
  | fn : String → JVal
deriving Repr

mutual
/-- Decidable equality of modelled JS values. -/
def jvalDecEq : (a b : JVal) → Decidable (a = b)
  | JVal.undef, JVal.undef => isTrue rfl
  | JVal.undef, JVal.str _ => isFalse (fun h => JVal.noConfusion h)
  | JVal.undef, JVal.num _ => isFalse (fun h => JVal.noConfusion h)
  | JVal.undef, JVal.obj _ => isFalse (fun h => JVal.noConfusion h)
  | JVal.undef, JVal.fn _ => isFalse (fun h => JVal.noConfusion h)
  | JVal.str _, JVal.undef => isFalse (fun h => JVal.noConfusion h)
  | JVal.str a, JVal.str b => decidable_of_iff (a = b) (by simp)
  | JVal.str _, JVal.num _ => isFalse (fun h => JVal.noConfusion h)
  | JVal.str _, JVal.obj _ => isFalse (fun h => JVal.noConfusion h)
  | JVal.str _, JVal.fn _ => isFalse (fun h => JVal.noConfusion h)
  | JVal.num _, JVal.undef => isFalse (fun h => JVal.noConfusion h)
  | JVal.num _, JVal.str _ => isFalse (fun h => JVal.noConfusion h)
  | JVal.num a, JVal.num b => decidable_of_iff (a = b) (by simp)
  | JVal.num _, JVal.obj _ => isFalse (fun h => JVal.noConfusion h)
  | JVal.num _, JVal.fn _ => isFalse (fun h => JVal.noConfusion h)
  | JVal.obj _, JVal.undef => isFalse (fun h => JVal.noConfusion h)
  | JVal.obj _, JVal.str _ => isFalse (fun h => JVal.noConfusion h)
  | JVal.obj _, JVal.num _ => isFalse (fun h => JVal.noConfusion h)
  | JVal.obj a, JVal.obj b =>
    letI := jvalListDecEq a b
    decidable_of_iff (a = b) (by simp)
  | JVal.obj _, JVal.fn _ => isFalse (fun h => JVal.noConfusion h)
  | JVal.fn _, JVal.undef => isFalse (fun h => JVal.noConfusion h)
  | JVal.fn _, JVal.str _ => isFalse (fun h => JVal.noConfusion h)
  | JVal.fn _, JVal.num _ => isFalse (fun h => JVal.noConfusion h)
  | JVal.fn _, JVal.obj _ => isFalse (fun h => JVal.noConfusion h)
  | JVal.fn a, JVal.fn b => decidable_of_iff (a = b) (by simp)

/-- Decidable equality of entry lists of modelled JS values. -/
def jvalListDecEq : (a b : List (String × JVal)) → Decidable (a = b)
  | [], [] => isTrue rfl
  | [], _ :: _ => isFalse (fun h => List.noConfusion h)
  | _ :: _, [] => isFalse (fun h => List.noConfusion h)
  | (k, v) :: r, (k2, v2) :: r2 =>
    letI := jvalDecEq v v2
    letI := jvalListDecEq r r2
    decidable_of_iff (k = k2 ∧ v = v2 ∧ r = r2) (by simp [and_assoc])
end

instance : DecidableEq JVal := jvalDecEq

/-- First value stored under `key`, scanning entries in order. -/
def lookupKey {α : Type} : List (String × α) → String → Option α
  | [], _ => none
  | (k, v) :: rest, key => if k = key then some v else lookupKey rest key

/-- JS property assignment `o[key] = v` on an entry list: an existing key keeps
its position and gets the new value; a new key is appended at the end. -/
def setEntry {α : Type} : List (String × α) → String → α → List (String × α)
  | [], key, v => [(key, v)]
  | (k, w) :: rest, key, v =>
    if k = key then (k, v) :: rest else (k, w) :: setEntry rest key v

/-- Entry list with every binding of `key` removed (JS object keys are unique,
so at most one binding is ever present); models rest-destructuring. -/
def removeKey {α : Type} : List (String × α) → String → List (String × α)
  | [], _ => []
  | (k, v) :: rest, key =>
    if k = key then removeKey rest key else (k, v) :: removeKey rest key

/-- JS property read `o[key]`: `undefined` on a missing key or a non-object. -/
def jget : JVal → String → JVal
  | JVal.obj kvs, key => (lookupKey kvs key).getD JVal.undef
  | _, _ => JVal.undef

/-- JS truthiness of the modelled values. -/
def jtruthy : JVal → Bool
  | JVal.undef => false
  | JVal.str s => s ≠ ""
  | JVal.num n => n ≠ 0
  | JVal.obj _ => true
  | JVal.fn _ => true

/-- `Object.keys`. -/
def jkeys : JVal → List String
  | JVal.obj kvs => kvs.map Prod.fst
  | _ => []

/-- `Object.entries` (empty on non-objects, as for the primitives at hand). -/
def jentries : JVal → List (String × JVal)
  | JVal.obj kvs => kvs
  | _ => []

/-- JS property assignment on a `JVal` (no effect on primitives, as in sloppy
mode); every receiver in the translated code is an object. -/
def jsetKey : JVal → String → JVal → JVal
  | JVal.obj kvs, key, v => JVal.obj (setEntry kvs key v)
  | other, _, _ => other

/-- Spread `\x7b...a, ...b\x7d`: the entries of `a` overridden/extended by the
entries of `b` in order. Spreading `undefined` contributes nothing. (String
primitives would spread their indexed characters; no call site spreads one.) -/
def spreadEntries (base more : List (String × JVal)) : List (String × JVal) :=
  more.foldl (fun acc kv => setEntry acc kv.1 kv.2) base

/-- Object-literal spread of two values, see `spreadEntries`. -/
def jspread (a b : JVal) : JVal :=
  JVal.obj (spreadEntries (jentries a) (jentries b))

mutual
/-- Modelled from the spec: the per-key decision of `deepmerge` from
`@mui/utils` (not part of this repository fragment) — when the existing
target value and the source value are both plain objects they are merged
recursively, otherwise the source value wins. -/
def deepmergeKeyVal : Option JVal → JVal → JVal
  | some (JVal.obj tk), JVal.obj sk => JVal.obj (deepmergeEntries tk sk)
  | _, sv => sv
termination_by structural _ sv => sv

/-- Modelled from the spec: `deepmerge` on entry lists, described by the spec
as deep-merging variable maps. Source keys are folded into the target in
source order via `deepmergeKeyVal`; existing keys keep the target's position,
new keys are appended. -/
def deepmergeEntries : List (String × JVal) → List (String × JVal) → List (String × JVal)
  | t, [] => t
  | t, (k, sv) :: rest =>
    deepmergeEntries (setEntry t k (deepmergeKeyVal (lookupKey t k) sv)) rest
termination_by structural _ s => s
end

/-- Modelled from the spec: top-level `deepmerge` — merges two plain objects
per `deepmergeEntries`; with a non-object source the (cloned) target is
returned, with a non-object target an empty object results. -/
def deepmerge (target source : JVal) : JVal :=
  match target, source with
  | JVal.obj t, JVal.obj s => JVal.obj (deepmergeEntries t s)
  | JVal.obj t, _ => JVal.obj t
  | _, _ => JVal.obj []

/-- Generated CSS-variable name: `--` followed by the prefix (when non-empty)
and the path segments joined with `-`. -/
def varName (pfx : String) (path : List String) : String :=
  "--" ++ String.intercalate "-" (if pfx = "" then path else pfx :: path)

/-- Reference emitted into the parsed theme: `var(--name)`, falling back to
`var(--name, value)` when the active prefix differs from the base prefix. -/
def varRef (pfx basePfx : String) (name value : String) : String :=
  if pfx = basePfx then "var(" ++ name ++ ")"
  else "var(" ++ name ++ ", " ++ value ++ ")"

mutual
/-- Modelled from the spec: the recursive walk of the Variable Parser
(`cssVarsParser`, not part of this repository fragment). For each leaf scalar
at path `p` (unless the skip predicate vetoes it) it generates the variable
`varName pfx p`, records its value, and replaces the leaf by a `var(...)`
reference; objects are recursed into; other values are left in place. Returns
the flat name-to-value list and the reconstructed theme. -/
def cssWalk (pfx basePfx : String) (skip : List String → JVal → Bool) :
    List String → JVal → List (String × String) × JVal
  | path, JVal.str s =>
    if skip path (JVal.str s) then ([], JVal.str s)
    else
      ([(varName pfx path, s)], JVal.str (varRef pfx basePfx (varName pfx path) s))
  | path, JVal.num i =>
    if skip path (JVal.num i) then ([], JVal.num i)
    else
      ([(varName pfx path, toString i)],
        JVal.str (varRef pfx basePfx (varName pfx path) (toString i)))
  | path, JVal.obj kvs =>
    let r := cssWalkEntries pfx basePfx skip path kvs
    (r.1, JVal.obj r.2)
  | _, JVal.undef => ([], JVal.undef)
  | _, JVal.fn tag => ([], JVal.fn tag)
termination_by structural _ v => v

/-- Walk of an object's entries in order, extending the path with each key. -/
def cssWalkEntries (pfx basePfx : String) (skip : List String → JVal → Bool) :
    List String → List (String × JVal) → List (String × String) × List (String × JVal)
  | _, [] => ([], [])
  | path, (k, v) :: rest =>
    let rv := cssWalk pfx basePfx skip (path ++ [k]) v
    let rr := cssWalkEntries pfx basePfx skip path rest
    (rv.1 ++ rr.1, (k, rv.2) :: rr.2)
termination_by structural _ l => l
end

/-- A flat variable list serialized as CSS custom-property declarations. -/
def serializeVars (vars : List (String × String)) : String :=
  String.intercalate "\n" (vars.map (fun kv => kv.1 ++ ": " ++ kv.2 ++ ";"))

/-- Result of one Variable Parser invocation. -/
structure ParserOutput where
  css : String
  vars : JVal
  parsedTheme : JVal
deriving Repr, DecidableEq

/-- Modelled from the spec: `cssVarsParser(theme, \x7bprefix, basePrefix,
shouldSkipGeneratingVar\x7d)` (not part of this repository fragment) — runs the
walk from the empty path and packages the flat variable map (as an object of
string values), its CSS serialization, and the reconstructed theme. -/
def cssVarsParser (theme : JVal) (pfx basePfx : String)
    (skip : List String → JVal → Bool) : ParserOutput :=
  let r := cssWalk pfx basePfx skip [] theme
  { css := serializeVars r.1
    vars := JVal.obj (r.1.map (fun kv => (kv.1, JVal.str kv.2)))
    parsedTheme := r.2 }

/-- JS strict equality `key === v` between an object key (a string) and a
modelled value: true exactly when `v` is that string. -/
def jvalEqStr (v : JVal) (s : String) : Bool :=
  match v with
  | JVal.str t => t = s
  | _ => false

/-- `undefined`-aware injection of an optional string into `JVal`. -/
def optToJVal : Option String → JVal
  | none => JVal.undef
  | some s => JVal.str s

/-- The value stored in `ColorSchemeContext` by the provider (lines 209-218),
restricted to its data fields; the setter fields are functions and play no
role in any claim. -/
structure SchemeState where
  mode : Option String
  lightColorScheme : Option String
  darkColorScheme : Option String
  colorScheme : Option String
  allColorSchemes : List String
deriving Repr, DecidableEq

/-- `useColorScheme` (lines 43-49): reads `ColorSchemeContext`, whose default
value is `undefined` (line 41) — the value seen outside any provider subtree.
`if (!value) throw new MuiError(...)` becomes the error branch; the provider
always supplies an object, which is never falsy in JS, so the truthiness test
coincides with the `undefined` test. -/
def useColorScheme (contextValue : Option SchemeState) : Except String SchemeState :=
  match contextValue with
  | none => Except.error "MUI: `useColorScheme` must be called under <CssVarsProvider />"
  | some value => Except.ok value

/-- JS template-literal / property-key stringification of the values at hand. -/
def jsToDisplayString : JVal → String
  | JVal.undef => "undefined"
  | JVal.str s => s
  | JVal.num n => toString n
  | JVal.obj _ => "[object Object]"
  | JVal.fn _ => "function"

/-- `typeof v === 'string'`. -/
def isStringVal : JVal → Bool
  | JVal.str _ => true
  | _ => false

/-- `typeof v === 'object'` for the values at hand (false for `undefined`,
strings, numbers and functions; `null` does not occur in this module). -/
def isObjectVal : JVal → Bool
  | JVal.obj _ => true
  | _ => false

/-- The setup-time validation condition of `createCssVarsProvider`
(lines 30-38), translated clause by clause. `!x` is JS falsiness and
`colorSchemes[k]` reads a property with the key stringified the way JS
property access does (`obj[undefined]` reads key `"undefined"`). -/
def defaultSchemeMisconfigured (defaultTheme : JVal) (dcs : JVal) : Bool :=
  !jtruthy (jget defaultTheme "colorSchemes") ||
  (isStringVal dcs &&
    !jtruthy (jget (jget defaultTheme "colorSchemes") (jsToDisplayString dcs))) ||
  (isObjectVal dcs &&
    !jtruthy (jget (jget defaultTheme "colorSchemes") (jsToDisplayString (jget dcs "light")))) ||
  (isObjectVal dcs &&
    !jtruthy (jget (jget defaultTheme "colorSchemes") (jsToDisplayString (jget dcs "dark"))))

/-- The three members of the object returned by `createCssVarsProvider`
(line 266). -/
structure ProviderExports where
  hasCssVarsProvider : Bool
  hasUseColorScheme : Bool
  hasGetInitColorSchemeScript : Bool
deriving Repr, DecidableEq

/-- `createCssVarsProvider` setup (lines 18-40 and 266): the validation only
calls `console.error`; no statement at the function's top level can throw, so
the function always reaches its `return` of the three exports. Totality of
this Lean function models that no-throw behavior; the returned list is the
console-error log. -/
def createCssVarsProviderSetup (defaultTheme : JVal) (designSystemColorScheme : JVal) :
    List String × ProviderExports :=
  let logs :=
    if defaultSchemeMisconfigured defaultTheme designSystemColorScheme then
      ["MUI: `" ++ jsToDisplayString designSystemColorScheme ++
        "` does not exist in `theme.colorSchemes`."]
    else []
  (logs,
   { hasCssVarsProvider := true
     hasUseColorScheme := true
     hasGetInitColorSchemeScript := true })

/-- `typeof defaultColorScheme === 'string' ? defaultColorScheme :
defaultColorScheme.light` (lines 66-67). (On `undefined` the JS code would
throw reading `.light`; the model reads `undefined`, a case no claim
exercises.) -/
def defaultLightColorScheme (dcs : JVal) : JVal :=
  match dcs with
  | JVal.str s => JVal.str s
  | _ => jget dcs "light"

/-- Same as `defaultLightColorScheme` for the `dark` member (lines 68-69). -/
def defaultDarkColorScheme (dcs : JVal) : JVal :=
  match dcs with
  | JVal.str s => JVal.str s
  | _ => jget dcs "dark"

/-- The IIFE computing `resolvedColorScheme` (lines 85-95): when
`colorScheme` is falsy (the server phase: `undefined`; JS falsiness also
covers the empty string) fall back to the default dark scheme when
`defaultMode === 'dark'` and to the default light scheme otherwise, else keep
`colorScheme`. -/
def resolveColorScheme (colorScheme : Option String) (defaultMode : String)
    (dcs : JVal) : JVal :=
  match colorScheme with
  | some cs =>
    if cs = "" then
      if defaultMode = "dark" then defaultDarkColorScheme dcs
      else defaultLightColorScheme dcs
    else JVal.str cs
  | none =>
    if defaultMode = "dark" then defaultDarkColorScheme dcs
    else defaultLightColorScheme dcs

/-- The IIFE computing `resolvedDefaultColorScheme` inside the scheme loop
(lines 141-149): a string `defaultColorScheme` is used as-is; with the object
form, `defaultMode === 'dark'` picks its `dark` member, anything else its
`light` member. -/
def resolvedDefaultColorScheme (dcs : JVal) (defaultMode : String) : JVal :=
  match dcs with
  | JVal.str s => JVal.str s
  | _ => if defaultMode = "dark" then jget dcs "dark" else jget dcs "light"

/-- Accumulator of the `Object.entries(colorSchemes).forEach` loop
(lines 119-155): the mutable `theme` binding and the `styleSheet` object. -/
structure SchemeLoopState where
  theme : JVal
  styleSheet : List (String × String)
deriving Repr, DecidableEq

/-- One iteration of the scheme loop (lines 119-155), translated statement by
statement: parse the scheme; `theme.vars = deepmerge(theme.vars, vars)`; when
the key is the resolved color scheme, spread the parsed scheme over the theme
and, if the result has a truthy `palette`, assign `palette.mode = mode` and
`palette.colorScheme = resolvedColorScheme`; finally assign the scheme's CSS
to `':root'` when the key is the resolved default color scheme and to the
attribute selector `[attribute="key"]` otherwise. -/
def schemeStep (pfx basePfx : String) (skip : List String → JVal → Bool)
    (attrName : String) (dcs : JVal) (defaultMode : String)
    (resolvedCS : JVal) (mode : Option String)
    (acc : SchemeLoopState) (entry : String × JVal) : SchemeLoopState :=
  let key := entry.1
  let p := cssVarsParser entry.2 pfx basePfx skip
  let theme1 := jsetKey acc.theme "vars" (deepmerge (jget acc.theme "vars") p.vars)
  let theme2 :=
    if jvalEqStr resolvedCS key then
      let t := jspread theme1 p.parsedTheme
      if jtruthy (jget t "palette") then
        jsetKey t "palette"
          (jsetKey (jsetKey (jget t "palette") "mode" (optToJVal mode))
            "colorScheme" resolvedCS)
      else t
    else theme1
  let sheet :=
    if jvalEqStr (resolvedDefaultColorScheme dcs defaultMode) key then
      setEntry acc.styleSheet ":root" p.css
    else
      setEntry acc.styleSheet ("[" ++ attrName ++ "=\"" ++ key ++ "\"]") p.css
  { theme := theme2, styleSheet := sheet }

/-- The props of `CssVarsProvider` that feed its render computation, after
default resolution (lines 51-61). `pfx` is the `prefix` prop and `attrName`
the `attribute` prop (renamed; `prefix` is reserved in Lean). -/
structure ProviderProps where
  themeProp : JVal
  pfx : String
  attrName : String
  defaultMode : String
  defaultColorScheme : JVal
deriving Repr, DecidableEq

/-- The data half of what `useCurrentColorScheme` returns (line 70-84).
`useCurrentColorScheme` is not part of this repository fragment; renders
receive its result as an input. Modelled from the spec: `mode` is one of
light/dark/system once hydrated (`setMode` validates membership), and
`colorScheme`/`systemMode` are `undefined` during the server phase. -/
structure SchemeHook where
  mode : Option String
  systemMode : Option String
  colorScheme : Option String
deriving Repr, DecidableEq

/-- Everything the render body computes that the claims observe. -/
structure RenderOutput where
  theme : JVal
  rootCss : String
  rootVars : JVal
  styleSheet : List (String × String)
  resolvedColorScheme : JVal
  allColorSchemes : List String
deriving Repr, DecidableEq

/-- `const \x7b colorSchemes = \x7b\x7d \x7d = themeProp` (line 64): the
destructuring default applies only when the property is `undefined`. -/
def themeColorSchemes (themeProp : JVal) : JVal :=
  if jget themeProp "colorSchemes" = JVal.undef then JVal.obj []
  else jget themeProp "colorSchemes"

/-- `const \x7b components = \x7b\x7d \x7d = themeProp` (line 64): the
destructuring default applies only when the property is `undefined`. -/
def themeComponents (themeProp : JVal) : JVal :=
  if jget themeProp "components" = JVal.undef then JVal.obj []
  else jget themeProp "components"

/-- `const \x7b colorSchemes = \x7b\x7d, components = \x7b\x7d,
...restThemeProp \x7d = themeProp` (line 64): the rest object keeps every
other key in its original order. -/
def restThemeOf (themeProp : JVal) : JVal :=
  JVal.obj (removeKey (removeKey (jentries themeProp) "colorSchemes") "components")

/-- The base theme object assembled at lines 108-115: the parsed root theme
spread first, then `components`, `colorSchemes`, `prefix`, `vars` (the root
variable map) and `getCssVar` (an opaque function value) assigned in
object-literal order. -/
def renderTheme0 (basePfx : String) (skip : List String → JVal → Bool)
    (props : ProviderProps) : JVal :=
  jsetKey (jsetKey (jsetKey (jsetKey (jsetKey
    (cssVarsParser (restThemeOf props.themeProp) props.pfx basePfx skip).parsedTheme
    "components" (themeComponents props.themeProp))
    "colorSchemes" (themeColorSchemes props.themeProp))
    "prefix" (JVal.str props.pfx))
    "vars" (cssVarsParser (restThemeOf props.themeProp) props.pfx basePfx skip).vars)
    "getCssVar" (JVal.fn ("createGetCssVar(" ++ props.pfx ++ ")"))

/-- The render-body computation of `CssVarsProvider` (lines 64-155),
translated statement by statement: destructure `colorSchemes` and
`components` out of the theme prop, resolve the color scheme, run
the Variable Parser on the remaining root theme, assemble the base theme
object (`renderTheme0`), and fold the scheme loop over
`Object.entries(colorSchemes)`. -/
def renderCompute (basePfx : String) (skip : List String → JVal → Bool)
    (props : ProviderProps) (hook : SchemeHook) : RenderOutput :=
  let colorSchemes := themeColorSchemes props.themeProp
  let resolvedCS := resolveColorScheme hook.colorScheme props.defaultMode props.defaultColorScheme
  let rootParse := cssVarsParser (restThemeOf props.themeProp) props.pfx basePfx skip
  let final := (jentries colorSchemes).foldl
    (schemeStep props.pfx basePfx skip props.attrName props.defaultColorScheme
      props.defaultMode resolvedCS hook.mode)
    { theme := renderTheme0 basePfx skip props, styleSheet := [] }
  { theme := final.theme
    rootCss := rootParse.css
    rootVars := rootParse.vars
    styleSheet := final.styleSheet
    resolvedColorScheme := resolvedCS
    allColorSchemes := jkeys colorSchemes }

/-- Observable DOM operations performed by the provider's effects. -/
inductive DomAction where
  | setAttr (name value : String)
  | setStyleProp (name : String) (value : JVal)
  | appendHeadStyle (css : String)
  | forceLayoutRead
  | scheduleHeadStyleRemoval (delayMs : Nat)
deriving Repr, DecidableEq

/-- The transition-disabling rule (lines 15-16). -/
def DISABLE_CSS_TRANSITION : String :=
  "*\x7b-webkit-transition:none!important;-moz-transition:none!important;-o-transition:none!important;-ms-transition:none!important;transition:none!important\x7d"

/-- The attribute effect (lines 157-162): `if (colorScheme)` — a truthiness
test — guards the single `setAttribute(attribute, colorScheme)` call; nothing
else is written. -/
def attributeEffect (colorScheme : Option String) (attrName : String) : List DomAction :=
  match colorScheme with
  | some cs => if cs = "" then [] else [DomAction.setAttr attrName cs]
  | none => []

/-- The `color-scheme` effect (lines 164-179): body writes and cleanup
writes. `if (!mode || !enableColorScheme) return undefined` produces no
writes and no cleanup; otherwise the body sets `color-scheme` to `systemMode`
when `mode === 'system'` and to `mode` otherwise, and the cleanup restores
the prior value read by `getPropertyValue` (always a string, possibly empty). -/
def colorSchemeEffect (mode systemMode : Option String) (enableCS : Bool)
    (priorValue : String) : List DomAction × List DomAction :=
  match mode with
  | none => ([], [])
  | some m =>
    if m = "" then ([], [])
    else if !enableCS then ([], [])
    else if m = "system" then
      ([DomAction.setStyleProp "color-scheme" (optToJVal systemMode)],
       [DomAction.setStyleProp "color-scheme" (JVal.str priorValue)])
    else
      ([DomAction.setStyleProp "color-scheme" (JVal.str m)],
       [DomAction.setStyleProp "color-scheme" (JVal.str priorValue)])

/-- One run of the transition effect's body (lines 181-199): when
`disableTransitionOnChange && hasMounted.current`, append the style element
holding `DISABLE_CSS_TRANSITION` to the document head, force a synchronous
`getComputedStyle` read, and schedule the element's removal with
`setTimeout(..., 1)`; otherwise do nothing. -/
def transitionEffect (disableTransitionOnChange hasMounted : Bool) : List DomAction :=
  if disableTransitionOnChange && hasMounted then
    [DomAction.appendHeadStyle DISABLE_CSS_TRANSITION, DomAction.forceLayoutRead,
     DomAction.scheduleHeadStyleRemoval 1]
  else []

/-- Flush history of the transition effect. Its dependency array is
`[colorScheme, disableTransitionOnChange]`, so its body runs at the mount
flush and once per colorScheme change thereafter. `hasMounted` is a ref that
is still `false` during the first flush — the effect that sets it to `true`
(lines 201-206) is declared after this one, so within the mount flush it runs
later — and `true` during every later flush. The `Bool` argument threads the
ref's value; `n` counts flushes. -/
def transitionEffectFlushes (disableTransitionOnChange : Bool) : Nat → Bool → List (List DomAction)
  | 0, _ => []
  | n + 1, hasMounted =>
    transitionEffect disableTransitionOnChange hasMounted ::
      transitionEffectFlushes disableTransitionOnChange n true

/-- The full flush history from mount: the ref starts `false`. -/
def transitionEffectHistory (disableTransitionOnChange : Bool) (n : Nat) : List (List DomAction) :=
  transitionEffectFlushes disableTransitionOnChange n false

/-- The selector the scheme loop assigns to a registry entry (lines 150-154):
`:root` for the entry matching the resolved default color scheme, the
attribute selector `[attribute="key"]` for every other entry. -/
def schemeSelector (dcs : JVal) (defaultMode attrName : String) (key : String) : String :=
  if jvalEqStr (resolvedDefaultColorScheme dcs defaultMode) key then ":root"
  else "[" ++ attrName ++ "=\"" ++ key ++ "\"]"

/-! ### Association-list and `JVal` lemmas -/

theorem lookupKey_setEntry_self {α : Type} (l : List (String × α)) (k : String) (v : α) :
    lookupKey (setEntry l k v) k = some v := by
  induction l with
  | nil => simp [setEntry, lookupKey]
  | cons hd tl ih =>
    by_cases h : hd.1 = k
    · simp [setEntry, lookupKey, h]
    · simp [setEntry, lookupKey, h, ih]

theorem lookupKey_setEntry_ne {α : Type} (l : List (String × α)) (k key : String) (v : α)
    (h : k ≠ key) : lookupKey (setEntry l key v) k = lookupKey l k := by
  induction l with
  | nil => simp [setEntry, lookupKey, Ne.symm h]
  | cons hd tl ih =>
    by_cases hk : hd.1 = key
    · simp [setEntry, lookupKey, hk, Ne.symm h]
    · simp [setEntry, lookupKey, hk, ih]

theorem setEntry_of_not_mem {α : Type} (l : List (String × α)) (k : String) (v : α)
    (h : k ∉ l.map Prod.fst) : setEntry l k v = l ++ [(k, v)] := by
  induction l with
  | nil => simp [setEntry]
  | cons hd tl ih =>
    simp only [List.map_cons, List.mem_cons] at h
    push_neg at h
    simp [setEntry, Ne.symm h.1, ih h.2]

theorem lookupKey_eq_none_of_not_mem {α : Type} (l : List (String × α)) (k : String)
    (h : k ∉ l.map Prod.fst) : lookupKey l k = none := by
  induction l with
  | nil => rfl
  | cons hd tl ih =>
    simp only [List.map_cons, List.mem_cons] at h
    push_neg at h
    simp [lookupKey, Ne.symm h.1, ih h.2]

theorem lookupKey_spreadEntries_not_mem (base more : List (String × JVal)) (k : String)
    (h : k ∉ more.map Prod.fst) :
    lookupKey (spreadEntries base more) k = lookupKey base k := by
  induction more generalizing base with
  | nil => rfl
  | cons hd tl ih =>
    simp only [List.map_cons, List.mem_cons] at h
    push_neg at h
    simp only [spreadEntries, List.foldl_cons]
    rw [show (List.foldl (fun acc kv => setEntry acc kv.1 kv.2) (setEntry base hd.1 hd.2) tl) =
          spreadEntries (setEntry base hd.1 hd.2) tl from rfl] at *
    rw [ih (setEntry base hd.1 hd.2) h.2, lookupKey_setEntry_ne _ _ _ _ h.1]

theorem jget_jsetKey_self (kvs : List (String × JVal)) (k : String) (v : JVal) :
    jget (jsetKey (JVal.obj kvs) k v) k = v := by
  simp [jsetKey, jget, lookupKey_setEntry_self]

theorem jget_jsetKey_ne (o : JVal) (k key : String) (v : JVal) (h : k ≠ key) :
    jget (jsetKey o key v) k = jget o k := by
  cases o <;> simp [jsetKey, jget, lookupKey_setEntry_ne _ _ _ _ h]

theorem jget_jspread_not_mem (a b : JVal) (k : String) (h : k ∉ jkeys b) :
    jget (jspread a b) k = jget a k := by
  have hh : k ∉ (jentries b).map Prod.fst := by
    cases b <;> simpa [jkeys, jentries] using h
  have base : jget (jspread a b) k =
      (lookupKey (spreadEntries (jentries a) (jentries b)) k).getD JVal.undef := rfl
  rw [base, lookupKey_spreadEntries_not_mem _ _ _ hh]
  cases a <;> simp [jget, jentries, lookupKey]

theorem jvalEqStr_iff (v : JVal) (s : String) : jvalEqStr v s = true ↔ v = JVal.str s := by
  cases v <;> simp [jvalEqStr]

theorem jget_of_not_truthy (v : JVal) (k : String) (h : jtruthy v = false) :
    jget v k = JVal.undef := by
  cases v <;> simp_all [jtruthy, jget]

theorem isObjectVal_jsetKey (o : JVal) (k : String) (v : JVal) :
    isObjectVal (jsetKey o k v) = isObjectVal o := by
  cases o <;> rfl

theorem isObjectVal_jspread (a b : JVal) : isObjectVal (jspread a b) = true := rfl

theorem jtruthy_of_isObjectVal (v : JVal) (h : isObjectVal v = true) : jtruthy v = true := by
  cases v <;> simp_all [isObjectVal, jtruthy]

/-! ### Variable Parser lemmas -/

theorem cssWalkEntries_keys (pfx basePfx : String) (skip : List String → JVal → Bool)
    (path : List String) (kvs : List (String × JVal)) :
    (cssWalkEntries pfx basePfx skip path kvs).2.map Prod.fst = kvs.map Prod.fst := by
  induction kvs with
  | nil => rfl
  | cons hd tl ih => simp [cssWalkEntries, ih]

theorem parsedTheme_jkeys (v : JVal) (pfx basePfx : String)
    (skip : List String → JVal → Bool) :
    jkeys (cssVarsParser v pfx basePfx skip).parsedTheme = jkeys v := by
  cases v with
  | obj kvs =>
    simp [cssVarsParser, cssWalk, jkeys, cssWalkEntries_keys]
  | str s =>
    by_cases h : skip [] (JVal.str s) <;> simp [cssVarsParser, cssWalk, jkeys, h]
  | num n =>
    by_cases h : skip [] (JVal.num n) <;> simp [cssVarsParser, cssWalk, jkeys, h]
  | undef => rfl
  | fn t => rfl

/-! ### Scheme-loop lemmas -/

theorem schemeStep_styleSheet (pfx basePfx : String) (skip : List String → JVal → Bool)
    (attrName : String) (dcs : JVal) (dm : String) (rcs : JVal) (mode : Option String)
    (acc : SchemeLoopState) (entry : String × JVal) :
    (schemeStep pfx basePfx skip attrName dcs dm rcs mode acc entry).styleSheet =
      setEntry acc.styleSheet (schemeSelector dcs dm attrName entry.1)
        (cssVarsParser entry.2 pfx basePfx skip).css := by
  unfold schemeStep schemeSelector
  by_cases h : jvalEqStr (resolvedDefaultColorScheme dcs dm) entry.1 <;> simp [h]

theorem schemeStep_theme_isObj (pfx basePfx : String) (skip : List String → JVal → Bool)
    (attrName : String) (dcs : JVal) (dm : String) (rcs : JVal) (mode : Option String)
    (acc : SchemeLoopState) (entry : String × JVal)
    (h : isObjectVal acc.theme = true) :
    isObjectVal (schemeStep pfx basePfx skip attrName dcs dm rcs mode acc entry).theme = true := by
  unfold schemeStep
  simp only []
  split_ifs <;> simp [isObjectVal_jsetKey, isObjectVal_jspread, h]

theorem schemeStep_vars (pfx basePfx : String) (skip : List String → JVal → Bool)
    (attrName : String) (dcs : JVal) (dm : String) (rcs : JVal) (mode : Option String)
    (acc : SchemeLoopState) (entry : String × JVal)
    (hobj : isObjectVal acc.theme = true)
    (hkeys : jvalEqStr rcs entry.1 = true → "vars" ∉ jkeys entry.2) :
    jget (schemeStep pfx basePfx skip attrName dcs dm rcs mode acc entry).theme "vars" =
      deepmerge (jget acc.theme "vars") (cssVarsParser entry.2 pfx basePfx skip).vars := by
  obtain ⟨kvs, hkvs⟩ : ∃ kvs, acc.theme = JVal.obj kvs := by
    cases h : acc.theme <;> simp_all [isObjectVal]
  unfold schemeStep
  simp only []
  split_ifs with h1 h2
  · have hparsed : "vars" ∉ jkeys (cssVarsParser entry.2 pfx basePfx skip).parsedTheme := by
      rw [parsedTheme_jkeys]; exact hkeys h1
    rw [jget_jsetKey_ne _ _ _ _ (by decide)]
    rw [jget_jspread_not_mem _ _ _ hparsed, hkvs, jget_jsetKey_self]
  · have hparsed : "vars" ∉ jkeys (cssVarsParser entry.2 pfx basePfx skip).parsedTheme := by
      rw [parsedTheme_jkeys]; exact hkeys h1
    rw [jget_jspread_not_mem _ _ _ hparsed, hkvs, jget_jsetKey_self]
  · rw [hkvs, jget_jsetKey_self]

theorem schemeStep_preserves_key (pfx basePfx : String) (skip : List String → JVal → Bool)
    (attrName : String) (dcs : JVal) (dm : String) (rcs : JVal) (mode : Option String)
    (acc : SchemeLoopState) (entry : String × JVal) (k : String)
    (hk1 : k ≠ "vars") (hk2 : k ≠ "palette")
    (hkeys : jvalEqStr rcs entry.1 = true → k ∉ jkeys entry.2) :
    jget (schemeStep pfx basePfx skip attrName dcs dm rcs mode acc entry).theme k =
      jget acc.theme k := by
  unfold schemeStep
  simp only []
  split_ifs with h1 h2
  · have hparsed : k ∉ jkeys (cssVarsParser entry.2 pfx basePfx skip).parsedTheme := by
      rw [parsedTheme_jkeys]; exact hkeys h1
    rw [jget_jsetKey_ne _ _ _ _ hk2, jget_jspread_not_mem _ _ _ hparsed,
      jget_jsetKey_ne _ _ _ _ hk1]
  · have hparsed : k ∉ jkeys (cssVarsParser entry.2 pfx basePfx skip).parsedTheme := by
      rw [parsedTheme_jkeys]; exact hkeys h1
    rw [jget_jspread_not_mem _ _ _ hparsed, jget_jsetKey_ne _ _ _ _ hk1]
  · rw [jget_jsetKey_ne _ _ _ _ hk1]

theorem schemeStep_nonmatch_preserves (pfx basePfx : String) (skip : List String → JVal → Bool)
    (attrName : String) (dcs : JVal) (dm : String) (rcs : JVal) (mode : Option String)
    (acc : SchemeLoopState) (entry : String × JVal) (k : String)
    (hk : k ≠ "vars") (hne : jvalEqStr rcs entry.1 = false) :
    jget (schemeStep pfx basePfx skip attrName dcs dm rcs mode acc entry).theme k =
      jget acc.theme k := by
  unfold schemeStep
  simp only [hne, Bool.false_eq_true, if_false]
  rw [jget_jsetKey_ne _ _ _ _ hk]

theorem schemeStep_match_palette (pfx basePfx : String) (skip : List String → JVal → Bool)
    (attrName : String) (dcs : JVal) (dm : String) (rcs : JVal) (mode : Option String)
    (acc : SchemeLoopState) (entry : String × JVal)
    (heq : jvalEqStr rcs entry.1 = true) (pkvs : List (String × JVal))
    (hp : jget (schemeStep pfx basePfx skip attrName dcs dm rcs mode acc entry).theme "palette" =
      JVal.obj pkvs) :
    jget (JVal.obj pkvs) "mode" = optToJVal mode ∧
    jget (JVal.obj pkvs) "colorScheme" = rcs := by
  unfold schemeStep at hp
  simp only [heq, if_true] at hp
  set theme1 := jsetKey acc.theme "vars"
    (deepmerge (jget acc.theme "vars") (cssVarsParser entry.2 pfx basePfx skip).vars) with ht1
  set t := jspread theme1 (cssVarsParser entry.2 pfx basePfx skip).parsedTheme with htdef
  obtain ⟨tkvs, htk⟩ : ∃ tkvs, t = JVal.obj tkvs := ⟨_, rfl⟩
  rw [htk] at hp
  by_cases htr : jtruthy (jget (JVal.obj tkvs) "palette") = true
  · simp only [htr, if_true] at hp
    rw [jget_jsetKey_self] at hp
    cases hP : jget (JVal.obj tkvs) "palette" with
    | obj P =>
      rw [hP] at hp
      have h1 : jget (JVal.obj pkvs) "colorScheme" = rcs := by
        rw [← hp]
        have : ∃ P2, jsetKey (JVal.obj P) "mode" (optToJVal mode) = JVal.obj P2 := ⟨_, rfl⟩
        obtain ⟨P2, hP2⟩ := this
        rw [hP2, jget_jsetKey_self]
      have h2 : jget (JVal.obj pkvs) "mode" = optToJVal mode := by
        rw [← hp, jget_jsetKey_ne _ _ _ _ (by decide), jget_jsetKey_self]
      exact ⟨h2, h1⟩
    | undef => rw [hP] at htr; simp [jtruthy] at htr
    | str s =>
      rw [hP] at hp; simp [jsetKey] at hp
    | num n =>
      rw [hP] at hp; simp [jsetKey] at hp
    | fn tag =>
      rw [hP] at hp; simp [jsetKey] at hp
  · rw [if_neg htr] at hp
    rw [hp] at htr
    simp [jtruthy] at htr

theorem schemeFold_theme_isObj (pfx basePfx : String) (skip : List String → JVal → Bool)
    (attrName : String) (dcs : JVal) (dm : String) (rcs : JVal) (mode : Option String)
    (entries : List (String × JVal)) (acc : SchemeLoopState)
    (hobj : isObjectVal acc.theme = true) :
    isObjectVal ((entries.foldl (schemeStep pfx basePfx skip attrName dcs dm rcs mode) acc).theme)
      = true := by
  induction entries generalizing acc with
  | nil => exact hobj
  | cons hd tl ih =>
    exact ih _ (schemeStep_theme_isObj _ _ _ _ _ _ _ _ _ _ hobj)

theorem schemeFold_vars (pfx basePfx : String) (skip : List String → JVal → Bool)
    (attrName : String) (dcs : JVal) (dm : String) (rcs : JVal) (mode : Option String)
    (entries : List (String × JVal)) (acc : SchemeLoopState)
    (hobj : isObjectVal acc.theme = true)
    (hkeys : ∀ kv ∈ entries, jvalEqStr rcs kv.1 = true → "vars" ∉ jkeys kv.2) :
    jget ((entries.foldl (schemeStep pfx basePfx skip attrName dcs dm rcs mode) acc).theme) "vars" =
      entries.foldl
        (fun a kv => deepmerge a (cssVarsParser kv.2 pfx basePfx skip).vars)
        (jget acc.theme "vars") := by
  induction entries generalizing acc with
  | nil => rfl
  | cons hd tl ih =>
    simp only [List.foldl_cons]
    rw [ih _ (schemeStep_theme_isObj _ _ _ _ _ _ _ _ _ _ hobj)
      (fun kv hkv => hkeys kv (List.mem_cons_of_mem _ hkv)),
      schemeStep_vars _ _ _ _ _ _ _ _ _ _ hobj (hkeys hd (List.mem_cons_self _ _))]

theorem schemeFold_preserves_key (pfx basePfx : String) (skip : List String → JVal → Bool)
    (attrName : String) (dcs : JVal) (dm : String) (rcs : JVal) (mode : Option String)
    (entries : List (String × JVal)) (acc : SchemeLoopState) (k : String)
    (hk1 : k ≠ "vars") (hk2 : k ≠ "palette")
    (hkeys : ∀ kv ∈ entries, jvalEqStr rcs kv.1 = true → k ∉ jkeys kv.2) :
    jget ((entries.foldl (schemeStep pfx basePfx skip attrName dcs dm rcs mode) acc).theme) k =
      jget acc.theme k := by
  induction entries generalizing acc with
  | nil => rfl
  | cons hd tl ih =>
    simp only [List.foldl_cons]
    rw [ih _ (fun kv hkv => hkeys kv (List.mem_cons_of_mem _ hkv)),
      schemeStep_preserves_key _ _ _ _ _ _ _ _ _ _ _ hk1 hk2
        (hkeys hd (List.mem_cons_self _ _))]

theorem schemeFold_nonmatch_preserves (pfx basePfx : String) (skip : List String → JVal → Bool)
    (attrName : String) (dcs : JVal) (dm : String) (rcs : JVal) (mode : Option String)
    (entries : List (String × JVal)) (acc : SchemeLoopState) (k : String)
    (hk : k ≠ "vars") (hne : ∀ kv ∈ entries, jvalEqStr rcs kv.1 = false) :
    jget ((entries.foldl (schemeStep pfx basePfx skip attrName dcs dm rcs mode) acc).theme) k =
      jget acc.theme k := by
  induction entries generalizing acc with
  | nil => rfl
  | cons hd tl ih =>
    simp only [List.foldl_cons]
    rw [ih _ (fun kv hkv => hne kv (List.mem_cons_of_mem _ hkv)),
      schemeStep_nonmatch_preserves _ _ _ _ _ _ _ _ _ _ _ hk
        (hne hd (List.mem_cons_self _ _))]

theorem schemeFold_styleSheet (pfx basePfx : String) (skip : List String → JVal → Bool)
    (attrName : String) (dcs : JVal) (dm : String) (rcs : JVal) (mode : Option String)
    (entries : List (String × JVal)) (acc : SchemeLoopState)
    (hnodup : (entries.map (fun kv => schemeSelector dcs dm attrName kv.1)).Nodup)
    (hdisj : ∀ kv ∈ entries,
      schemeSelector dcs dm attrName kv.1 ∉ acc.styleSheet.map Prod.fst) :
    (entries.foldl (schemeStep pfx basePfx skip attrName dcs dm rcs mode) acc).styleSheet =
      acc.styleSheet ++ entries.map
        (fun kv => (schemeSelector dcs dm attrName kv.1,
          (cssVarsParser kv.2 pfx basePfx skip).css)) := by
  induction entries generalizing acc with
  | nil => simp
  | cons hd tl ih =>
    simp only [List.map_cons, List.nodup_cons] at hnodup
    simp only [List.foldl_cons, List.map_cons]
    have hstep : (schemeStep pfx basePfx skip attrName dcs dm rcs mode acc hd).styleSheet =
        acc.styleSheet ++ [(schemeSelector dcs dm attrName hd.1,
          (cssVarsParser hd.2 pfx basePfx skip).css)] := by
      rw [schemeStep_styleSheet,
        setEntry_of_not_mem _ _ _ (hdisj hd (List.mem_cons_self _ _))]
    rw [ih _ hnodup.2]
    · rw [hstep, List.append_assoc]; rfl
    · intro kv hkv
      rw [hstep]
      simp only [List.map_append, List.mem_append, List.map_cons, List.map_nil,
        List.mem_singleton]
      push_neg
      refine ⟨hdisj kv (List.mem_cons_of_mem _ hkv), ?_⟩
      intro hcontra
      exact hnodup.1 (hcontra ▸ List.mem_map_of_mem _ hkv)

/-! ### Selector distinctness -/

theorem root_ne_attrSelector (a k : String) :
    (":root" : String) ≠ "[" ++ a ++ "=\"" ++ k ++ "\"]" := by
  intro h
  have h2 := congrArg String.data h
  simp only [String.data_append] at h2
  simp only [List.append_assoc, List.singleton_append] at h2
  exact absurd (List.head_eq_of_cons_eq h2) (by decide)

theorem string_affix_inj (p q k1 k2 : String) (h : p ++ k1 ++ q = p ++ k2 ++ q) :
    k1 = k2 := by
  have h2 := congrArg String.data h
  simp only [String.data_append] at h2
  exact String.ext (List.append_cancel_left (List.append_cancel_right h2))

theorem schemeSelector_inj (dcs : JVal) (dm attrName : String) :
    Function.Injective (schemeSelector dcs dm attrName) := by
  intro k1 k2 h
  unfold schemeSelector at h
  split_ifs at h with h1 h2 h2
  · rw [jvalEqStr_iff] at h1 h2
    rw [h1] at h2
    exact JVal.str.inj h2
  · exact absurd h (root_ne_attrSelector _ _)
  · exact absurd h.symm (root_ne_attrSelector _ _)
  · exact string_affix_inj ("[" ++ attrName ++ "=\"") "\"]" k1 k2 h

/-! ### Flush-history lemmas for the transition effect -/

theorem transitionEffectFlushes_length (dtc : Bool) (n : Nat) (b : Bool) :
    (transitionEffectFlushes dtc n b).length = n := by
  induction n generalizing b with
  | zero => rfl
  | succ m ih => simp [transitionEffectFlushes, ih]

theorem transitionEffectFlushes_mem_true (dtc : Bool) (m : Nat) (acts : List DomAction)
    (h : acts ∈ transitionEffectFlushes dtc m true) : acts = transitionEffect dtc true := by
  induction m with
  | zero => simp [transitionEffectFlushes] at h
  | succ k ih =>
    simp only [transitionEffectFlushes, List.mem_cons] at h
    rcases h with h | h
    · exact h
    · exact ih h

/-! ### Render-output equations and base-theme lemmas -/

theorem jkeys_eq_entries_map (v : JVal) : jkeys v = (jentries v).map Prod.fst := by
  cases v <;> rfl

theorem isObjectVal_exists (v : JVal) (h : isObjectVal v = true) :
    ∃ kvs, v = JVal.obj kvs := by
  cases v <;> simp_all [isObjectVal]

theorem renderCompute_styleSheet_eq (basePfx : String) (skip : List String → JVal → Bool)
    (props : ProviderProps) (hook : SchemeHook) :
    (renderCompute basePfx skip props hook).styleSheet =
      ((jentries (themeColorSchemes props.themeProp)).foldl
        (schemeStep props.pfx basePfx skip props.attrName props.defaultColorScheme
          props.defaultMode
          (resolveColorScheme hook.colorScheme props.defaultMode props.defaultColorScheme)
          hook.mode)
        { theme := renderTheme0 basePfx skip props, styleSheet := [] }).styleSheet := rfl

theorem renderCompute_theme_eq (basePfx : String) (skip : List String → JVal → Bool)
    (props : ProviderProps) (hook : SchemeHook) :
    (renderCompute basePfx skip props hook).theme =
      ((jentries (themeColorSchemes props.themeProp)).foldl
        (schemeStep props.pfx basePfx skip props.attrName props.defaultColorScheme
          props.defaultMode
          (resolveColorScheme hook.colorScheme props.defaultMode props.defaultColorScheme)
          hook.mode)
        { theme := renderTheme0 basePfx skip props, styleSheet := [] }).theme := rfl

theorem renderCompute_rootVars_eq (basePfx : String) (skip : List String → JVal → Bool)
    (props : ProviderProps) (hook : SchemeHook) :
    (renderCompute basePfx skip props hook).rootVars =
      (cssVarsParser (restThemeOf props.themeProp) props.pfx basePfx skip).vars := rfl

theorem renderCompute_rootCss_eq (basePfx : String) (skip : List String → JVal → Bool)
    (props : ProviderProps) (hook : SchemeHook) :
    (renderCompute basePfx skip props hook).rootCss =
      (cssVarsParser (restThemeOf props.themeProp) props.pfx basePfx skip).css := rfl

theorem renderCompute_resolvedCS_eq (basePfx : String) (skip : List String → JVal → Bool)
    (props : ProviderProps) (hook : SchemeHook) :
    (renderCompute basePfx skip props hook).resolvedColorScheme =
      resolveColorScheme hook.colorScheme props.defaultMode props.defaultColorScheme := rfl

theorem restThemeOf_parsedTheme_isObj (tp : JVal) (pfx basePfx : String)
    (skip : List String → JVal → Bool) :
    isObjectVal (cssVarsParser (restThemeOf tp) pfx basePfx skip).parsedTheme = true := by
  simp [restThemeOf, cssVarsParser, cssWalk, isObjectVal]

theorem renderTheme0_isObj (basePfx : String) (skip : List String → JVal → Bool)
    (props : ProviderProps) :
    isObjectVal (renderTheme0 basePfx skip props) = true := by
  simp [renderTheme0, isObjectVal_jsetKey, restThemeOf_parsedTheme_isObj]

theorem renderTheme0_vars (basePfx : String) (skip : List String → JVal → Bool)
    (props : ProviderProps) :
    jget (renderTheme0 basePfx skip props) "vars" =
      (cssVarsParser (restThemeOf props.themeProp) props.pfx basePfx skip).vars := by
  unfold renderTheme0
  rw [jget_jsetKey_ne _ _ _ _ (by decide)]
  obtain ⟨kvs, hkvs⟩ := isObjectVal_exists _ (by
    simp [isObjectVal_jsetKey, restThemeOf_parsedTheme_isObj] :
    isObjectVal (jsetKey (jsetKey (jsetKey
      (cssVarsParser (restThemeOf props.themeProp) props.pfx basePfx skip).parsedTheme
      "components" (themeComponents props.themeProp))
      "colorSchemes" (themeColorSchemes props.themeProp))
      "prefix" (JVal.str props.pfx)) = true)
  rw [hkvs, jget_jsetKey_self]

theorem renderTheme0_components (basePfx : String) (skip : List String → JVal → Bool)
    (props : ProviderProps) :
    jget (renderTheme0 basePfx skip props) "components" = themeComponents props.themeProp := by
  unfold renderTheme0
  rw [jget_jsetKey_ne _ _ _ _ (by decide), jget_jsetKey_ne _ _ _ _ (by decide),
    jget_jsetKey_ne _ _ _ _ (by decide), jget_jsetKey_ne _ _ _ _ (by decide)]
  obtain ⟨kvs, hkvs⟩ := isObjectVal_exists _
    (restThemeOf_parsedTheme_isObj props.themeProp props.pfx basePfx skip)
  rw [hkvs, jget_jsetKey_self]

theorem renderTheme0_colorSchemes (basePfx : String) (skip : List String → JVal → Bool)
    (props : ProviderProps) :
    jget (renderTheme0 basePfx skip props) "colorSchemes" =
      themeColorSchemes props.themeProp := by
  unfold renderTheme0
  rw [jget_jsetKey_ne _ _ _ _ (by decide), jget_jsetKey_ne _ _ _ _ (by decide),
    jget_jsetKey_ne _ _ _ _ (by decide)]
  obtain ⟨kvs, hkvs⟩ := isObjectVal_exists _ (by
    simp [isObjectVal_jsetKey, restThemeOf_parsedTheme_isObj] :
    isObjectVal (jsetKey
      (cssVarsParser (restThemeOf props.themeProp) props.pfx basePfx skip).parsedTheme
      "components" (themeComponents props.themeProp)) = true)
  rw [hkvs, jget_jsetKey_self]

/-! ### Claim theorems -/

/-- Claim C1: a call of `useColorScheme` that sees the context's default
`undefined` value (no enclosing `CssVarsProvider`) throws the MuiError before
producing any value, and with a provider in scope it returns exactly the
context value — it never fabricates a default scheme state. -/
theorem useColorScheme_throws_without_provider :
    useColorScheme none =
      Except.error "MUI: `useColorScheme` must be called under <CssVarsProvider />" ∧
    ∀ value : SchemeState, useColorScheme (some value) = Except.ok value :=
  ⟨rfl, fun _ => rfl⟩

/-- Claim C4: when the configured default color scheme (a string, or the
`light`/`dark` members of the object form) is absent from
`theme.colorSchemes`, or the theme has no `colorSchemes` at all,
`createCssVarsProvider` logs a console diagnostic but does not throw: the
`\x7bCssVarsProvider, useColorScheme, getInitColorSchemeScript\x7d` triple is
still returned (the setup function is total). -/
theorem misconfigured_default_scheme_logs_and_returns
    (defaultTheme dcs : JVal)
    (h : jget defaultTheme "colorSchemes" = JVal.undef ∨
      (∃ s, dcs = JVal.str s ∧
        jget (jget defaultTheme "colorSchemes") s = JVal.undef) ∨
      (∃ kvs, dcs = JVal.obj kvs ∧
        (jget (jget defaultTheme "colorSchemes")
            (jsToDisplayString (jget dcs "light")) = JVal.undef ∨
         jget (jget defaultTheme "colorSchemes")
            (jsToDisplayString (jget dcs "dark")) = JVal.undef))) :
    (createCssVarsProviderSetup defaultTheme dcs).1 =
      ["MUI: `" ++ jsToDisplayString dcs ++ "` does not exist in `theme.colorSchemes`."] ∧
    (createCssVarsProviderSetup defaultTheme dcs).2 =
      { hasCssVarsProvider := true, hasUseColorScheme := true,
        hasGetInitColorSchemeScript := true } := by
  have hmis : defaultSchemeMisconfigured defaultTheme dcs = true := by
    unfold defaultSchemeMisconfigured
    rcases h with h | ⟨s, hs, hg⟩ | ⟨kvs, hk, hg⟩
    · simp [h, jtruthy]
    · subst hs
      simp [hg, jtruthy, isStringVal, jsToDisplayString]
    · subst hk
      rcases hg with hg | hg <;> simp [hg, jtruthy, isObjectVal]
  simp [createCssVarsProviderSetup, hmis]

/-- Witness for C4: a theme with no `colorSchemes` and a string default
scheme `"paper"`. -/
theorem misconfigured_default_scheme_witness :
    (createCssVarsProviderSetup (JVal.obj []) (JVal.str "paper")).1 =
      ["MUI: `" ++ jsToDisplayString (JVal.str "paper") ++
        "` does not exist in `theme.colorSchemes`."] ∧
    (createCssVarsProviderSetup (JVal.obj []) (JVal.str "paper")).2 =
      { hasCssVarsProvider := true, hasUseColorScheme := true,
        hasGetInitColorSchemeScript := true } :=
  misconfigured_default_scheme_logs_and_returns (JVal.obj []) (JVal.str "paper") (Or.inl rfl)

/-- Claim C9: when `colorScheme` is `undefined` (server / pre-hydration
phase), the provider's resolved color scheme falls back deterministically to
the configured default dark scheme when `defaultMode = "dark"` and to the
configured default light scheme for every other `defaultMode` (including
`"system"`). -/
theorem resolved_scheme_server_fallback
    (basePfx : String) (skip : List String → JVal → Bool)
    (props : ProviderProps) (hook : SchemeHook)
    (h : hook.colorScheme = none) :
    (renderCompute basePfx skip props hook).resolvedColorScheme =
      (if props.defaultMode = "dark" then defaultDarkColorScheme props.defaultColorScheme
       else defaultLightColorScheme props.defaultColorScheme) := by
  simp [renderCompute, resolveColorScheme, h]

/-- Witness for C9: `defaultMode = "system"` resolves to the default light
scheme on the server. -/
theorem resolved_scheme_server_fallback_witness :
    (renderCompute "" (fun _ _ => false)
      { themeProp := JVal.obj [], pfx := "", attrName := "data-mui-color-scheme",
        defaultMode := "system", defaultColorScheme := JVal.str "light" }
      { mode := none, systemMode := none, colorScheme := none }).resolvedColorScheme =
      (if ("system" : String) = "dark" then defaultDarkColorScheme (JVal.str "light")
       else defaultLightColorScheme (JVal.str "light")) :=
  resolved_scheme_server_fallback "" (fun _ _ => false)
    { themeProp := JVal.obj [], pfx := "", attrName := "data-mui-color-scheme",
      defaultMode := "system", defaultColorScheme := JVal.str "light" }
    { mode := none, systemMode := none, colorScheme := none } rfl

/-- Claim C6 counterexample: the claim asserts a DOM write for every
non-`undefined` scheme name, but the guard `if (colorScheme)` is a JS
truthiness test — for the concrete, non-`undefined` value `""` the effect
performs no write at all. -/
theorem attribute_effect_empty_scheme_counterexample :
    attributeEffect (some "") "data-mui-color-scheme" = [] ∧
    ([] : List DomAction) ≠ [DomAction.setAttr "data-mui-color-scheme" ""] :=
  ⟨rfl, by simp⟩

/-- Claim C6 (amended): whenever `colorScheme` holds a truthy — non-`undefined`
and non-empty — scheme name, the effect sets the configured attribute on the
document root to exactly that name and touches nothing else; when
`colorScheme` is `undefined` or the empty string the effect performs no DOM
write. -/
theorem attribute_effect_truthy_scheme (cs attrName : String) (h : cs ≠ "") :
    attributeEffect (some cs) attrName = [DomAction.setAttr attrName cs] ∧
    attributeEffect none attrName = [] ∧
    attributeEffect (some "") attrName = [] := by
  refine ⟨?_, rfl, rfl⟩
  simp [attributeEffect, h]

/-- Witness for C6 (amended) at the scheme name `"dark"`. -/
theorem attribute_effect_truthy_scheme_witness :
    attributeEffect (some "dark") "data-mui-color-scheme" =
      [DomAction.setAttr "data-mui-color-scheme" "dark"] ∧
    attributeEffect none "data-mui-color-scheme" = [] ∧
    attributeEffect (some "") "data-mui-color-scheme" = [] :=
  attribute_effect_truthy_scheme "dark" "data-mui-color-scheme" (by decide)

/-- Claim C5: with `enableColorScheme` on and the hook state well-formed
(mode one of light/dark/system — `setMode` validates this per the spec — and,
in system mode, an OS-reported `systemMode` of light or dark), every value
the effect body writes to the document root's `color-scheme` style property
is `"light"` or `"dark"`: it writes `mode` when the mode is light or dark and
`systemMode` when the mode is system; the cleanup restores exactly the prior
property value on teardown or dependency change. -/
theorem color_scheme_property_values
    (mode systemMode : Option String) (priorValue : String)
    (hm : mode = some "light" ∨ mode = some "dark" ∨ mode = some "system")
    (hs : mode = some "system" → systemMode = some "light" ∨ systemMode = some "dark") :
    (∀ a ∈ (colorSchemeEffect mode systemMode true priorValue).1,
      a = DomAction.setStyleProp "color-scheme" (JVal.str "light") ∨
      a = DomAction.setStyleProp "color-scheme" (JVal.str "dark")) ∧
    ((mode = some "light" ∨ mode = some "dark") →
      (colorSchemeEffect mode systemMode true priorValue).1 =
        [DomAction.setStyleProp "color-scheme" (optToJVal mode)]) ∧
    (mode = some "system" →
      (colorSchemeEffect mode systemMode true priorValue).1 =
        [DomAction.setStyleProp "color-scheme" (optToJVal systemMode)]) ∧
    (colorSchemeEffect mode systemMode true priorValue).2 =
      [DomAction.setStyleProp "color-scheme" (JVal.str priorValue)] := by
  rcases hm with h | h | h
  · subst h
    refine ⟨?_, fun _ => by simp [colorSchemeEffect, optToJVal], ?_, ?_⟩
    · intro a ha
      simp [colorSchemeEffect] at ha
      simp [ha]
    · intro hcon
      exact absurd hcon (by decide)
    · simp [colorSchemeEffect]
  · subst h
    refine ⟨?_, fun _ => by simp [colorSchemeEffect, optToJVal], ?_, ?_⟩
    · intro a ha
      simp [colorSchemeEffect] at ha
      simp [ha]
    · intro hcon
      exact absurd hcon (by decide)
    · simp [colorSchemeEffect]
  · subst h
    rcases hs rfl with h2 | h2 <;> subst h2
    · refine ⟨?_, ?_, fun _ => by simp [colorSchemeEffect, optToJVal], ?_⟩
      · intro a ha
        simp [colorSchemeEffect, optToJVal] at ha
        simp [ha]
      · intro hcon
        rcases hcon with hcon | hcon <;> exact absurd hcon (by decide)
      · simp [colorSchemeEffect]
    · refine ⟨?_, ?_, fun _ => by simp [colorSchemeEffect, optToJVal], ?_⟩
      · intro a ha
        simp [colorSchemeEffect, optToJVal] at ha
        simp [ha]
      · intro hcon
        rcases hcon with hcon | hcon <;> exact absurd hcon (by decide)
      · simp [colorSchemeEffect]

/-- Witness for C5 in system mode with an OS-reported dark preference. -/
theorem color_scheme_property_values_witness :
    (∀ a ∈ (colorSchemeEffect (some "system") (some "dark") true "").1,
      a = DomAction.setStyleProp "color-scheme" (JVal.str "light") ∨
      a = DomAction.setStyleProp "color-scheme" (JVal.str "dark")) ∧
    ((some "system" = some "light" ∨ (some "system" : Option String) = some "dark") →
      (colorSchemeEffect (some "system") (some "dark") true "").1 =
        [DomAction.setStyleProp "color-scheme" (optToJVal (some "system"))]) ∧
    ((some "system" : Option String) = some "system" →
      (colorSchemeEffect (some "system") (some "dark") true "").1 =
        [DomAction.setStyleProp "color-scheme" (optToJVal (some "dark"))]) ∧
    (colorSchemeEffect (some "system") (some "dark") true "").2 =
      [DomAction.setStyleProp "color-scheme" (JVal.str "")] :=
  color_scheme_property_values (some "system") (some "dark") ""
    (Or.inr (Or.inr rfl)) (fun _ => Or.inr rfl)

/-- Claim C3: with `disableTransitionOnChange` enabled, the flush of the
transition effect at the initial mount appends nothing (the `hasMounted` ref
is still `false` when that effect body first runs); every later flush —
triggered exactly by `colorScheme` changes — appends the transition-disabling
style element, forces a synchronous `getComputedStyle` read, and schedules
the element's removal by a 1-millisecond timer. -/
theorem transition_rule_skips_initial_mount (n i : Nat) (dtc : Bool)
    (hn : 0 < n) (hi : i < n) (hip : 0 < i) :
    (transitionEffectHistory dtc n).get
      ⟨0, by simpa [transitionEffectHistory, transitionEffectFlushes_length] using hn⟩ = [] ∧
    (transitionEffectHistory true n).get
      ⟨i, by simpa [transitionEffectHistory, transitionEffectFlushes_length] using hi⟩ =
      [DomAction.appendHeadStyle DISABLE_CSS_TRANSITION, DomAction.forceLayoutRead,
       DomAction.scheduleHeadStyleRemoval 1] := by
  constructor
  · cases n with
    | zero => omega
    | succ m => simp [transitionEffectHistory, transitionEffectFlushes, transitionEffect]
  · cases n with
    | zero => omega
    | succ m =>
      cases i with
      | zero => omega
      | succ j =>
        have hj : j < (transitionEffectFlushes true m true).length := by
          rw [transitionEffectFlushes_length]; omega
        have hstep : (transitionEffectHistory true (m + 1)).get
            ⟨j + 1, by simpa [transitionEffectHistory, transitionEffectFlushes_length]
              using hi⟩ =
            (transitionEffectFlushes true m true).get ⟨j, hj⟩ := rfl
        rw [hstep]
        rw [transitionEffectFlushes_mem_true true m _
          (List.get_mem (transitionEffectFlushes true m true) j hj)]
        simp [transitionEffect]

/-- Witness for C3 with two flushes: the mount flush and one scheme change. -/
theorem transition_rule_skips_initial_mount_witness :
    (transitionEffectHistory true 2).get ⟨0, by decide⟩ = [] ∧
    (transitionEffectHistory true 2).get ⟨1, by decide⟩ =
      [DomAction.appendHeadStyle DISABLE_CSS_TRANSITION, DomAction.forceLayoutRead,
       DomAction.scheduleHeadStyleRemoval 1] :=
  transition_rule_skips_initial_mount 2 1 true (by decide) (by decide) (by decide)

/-- Claim C2: with a registry holding the two schemes `light` and `dark` and
the string default color scheme `"light"` (default mode not `"dark"`), the
style sheet produced by one render maps `:root` to the CSS block parsed from
the light scheme and `[attribute="dark"]` to the CSS block parsed from the
dark scheme; and in general, for a registry with unique keys, every entry
other than the resolved default contributes its CSS under the attribute
selector built from its scheme name. -/
theorem styleSheet_root_and_attribute_selectors :
    (∀ (basePfx : String) (skip : List String → JVal → Bool) (props : ProviderProps)
      (hook : SchemeHook) (L D : JVal),
      jget props.themeProp "colorSchemes" = JVal.obj [("light", L), ("dark", D)] →
      props.defaultColorScheme = JVal.str "light" →
      props.defaultMode ≠ "dark" →
      (renderCompute basePfx skip props hook).styleSheet =
        [(":root", (cssVarsParser L props.pfx basePfx skip).css),
         ("[" ++ props.attrName ++ "=\"" ++ "dark" ++ "\"]",
           (cssVarsParser D props.pfx basePfx skip).css)]) ∧
    (∀ (basePfx : String) (skip : List String → JVal → Bool) (props : ProviderProps)
      (hook : SchemeHook) (key : String) (scheme : JVal),
      (jkeys (themeColorSchemes props.themeProp)).Nodup →
      (key, scheme) ∈ jentries (themeColorSchemes props.themeProp) →
      JVal.str key ≠ resolvedDefaultColorScheme props.defaultColorScheme props.defaultMode →
      ("[" ++ props.attrName ++ "=\"" ++ key ++ "\"]",
        (cssVarsParser scheme props.pfx basePfx skip).css) ∈
        (renderCompute basePfx skip props hook).styleSheet) := by
  constructor
  · intro basePfx skip props hook L D hreg hdcs _hdm
    have hcs : themeColorSchemes props.themeProp = JVal.obj [("light", L), ("dark", D)] := by
      rw [themeColorSchemes, hreg]; simp
    have hsel_light : schemeSelector props.defaultColorScheme props.defaultMode
        props.attrName "light" = ":root" := by
      simp [schemeSelector, resolvedDefaultColorScheme, hdcs, jvalEqStr]
    have hsel_dark : schemeSelector props.defaultColorScheme props.defaultMode
        props.attrName "dark" = "[" ++ props.attrName ++ "=\"" ++ "dark" ++ "\"]" := by
      simp [schemeSelector, resolvedDefaultColorScheme, hdcs, jvalEqStr]
    have hfold := schemeFold_styleSheet props.pfx basePfx skip props.attrName
      props.defaultColorScheme props.defaultMode
      (resolveColorScheme hook.colorScheme props.defaultMode props.defaultColorScheme)
      hook.mode [("light", L), ("dark", D)]
      { theme := renderTheme0 basePfx skip props, styleSheet := [] }
      (by simp [hsel_light, hsel_dark, List.nodup_cons]
          exact root_ne_attrSelector props.attrName "dark")
      (by intro kv hkv; simp)
    rw [renderCompute_styleSheet_eq, hcs]
    simp only [jentries] at hfold ⊢
    rw [hfold]
    simp [hsel_light, hsel_dark]
  · intro basePfx skip props hook key scheme hnodup hmem hne
    have hnodupsel : ((jentries (themeColorSchemes props.themeProp)).map
        (fun kv => schemeSelector props.defaultColorScheme props.defaultMode
          props.attrName kv.1)).Nodup := by
      have hmm : (jentries (themeColorSchemes props.themeProp)).map
          (fun kv => schemeSelector props.defaultColorScheme props.defaultMode
            props.attrName kv.1) =
          ((jentries (themeColorSchemes props.themeProp)).map Prod.fst).map
            (schemeSelector props.defaultColorScheme props.defaultMode props.attrName) := by
        rw [List.map_map]; rfl
      rw [hmm]
      refine List.Nodup.map (schemeSelector_inj _ _ _) ?_
      rw [← jkeys_eq_entries_map]
      exact hnodup
    have hfold := schemeFold_styleSheet props.pfx basePfx skip props.attrName
      props.defaultColorScheme props.defaultMode
      (resolveColorScheme hook.colorScheme props.defaultMode props.defaultColorScheme)
      hook.mode (jentries (themeColorSchemes props.themeProp))
      { theme := renderTheme0 basePfx skip props, styleSheet := [] }
      hnodupsel (by intro kv hkv; simp)
    rw [renderCompute_styleSheet_eq, hfold]
    have hsel : schemeSelector props.defaultColorScheme props.defaultMode
        props.attrName key = "[" ++ props.attrName ++ "=\"" ++ key ++ "\"]" := by
      have hb : jvalEqStr (resolvedDefaultColorScheme props.defaultColorScheme
          props.defaultMode) key = false := by
        cases hb : jvalEqStr (resolvedDefaultColorScheme props.defaultColorScheme
            props.defaultMode) key with
        | false => rfl
        | true => exact absurd ((jvalEqStr_iff _ _).1 hb).symm hne
      simp [schemeSelector, hb]
    have hmm := List.mem_map_of_mem
      (fun kv : String × JVal => (schemeSelector props.defaultColorScheme props.defaultMode
        props.attrName kv.1, (cssVarsParser kv.2 props.pfx basePfx skip).css)) hmem
    simp only [] at hmm
    rw [hsel] at hmm
    simp only [List.nil_append]
    exact hmm

/-- Witness for C2: a concrete two-scheme theme; both the full style-sheet
shape and the membership clause for the non-default `dark` entry. -/
theorem styleSheet_root_and_attribute_selectors_witness :
    (renderCompute "" (fun _ _ => false)
      { themeProp := JVal.obj [("colorSchemes", JVal.obj
          [("light", JVal.obj [("c", JVal.str "white")]),
           ("dark", JVal.obj [("c", JVal.str "black")])])],
        pfx := "", attrName := "data-mui-color-scheme",
        defaultMode := "light", defaultColorScheme := JVal.str "light" }
      { mode := none, systemMode := none, colorScheme := none }).styleSheet =
      [(":root", (cssVarsParser (JVal.obj [("c", JVal.str "white")]) "" ""
          (fun _ _ => false)).css),
       ("[" ++ "data-mui-color-scheme" ++ "=\"" ++ "dark" ++ "\"]",
         (cssVarsParser (JVal.obj [("c", JVal.str "black")]) "" ""
           (fun _ _ => false)).css)] ∧
    ("[" ++ "data-mui-color-scheme" ++ "=\"" ++ "dark" ++ "\"]",
      (cssVarsParser (JVal.obj [("c", JVal.str "black")]) "" ""
        (fun _ _ => false)).css) ∈
      (renderCompute "" (fun _ _ => false)
        { themeProp := JVal.obj [("colorSchemes", JVal.obj
            [("light", JVal.obj [("c", JVal.str "white")]),
             ("dark", JVal.obj [("c", JVal.str "black")])])],
          pfx := "", attrName := "data-mui-color-scheme",
          defaultMode := "light", defaultColorScheme := JVal.str "light" }
        { mode := none, systemMode := none, colorScheme := none }).styleSheet :=
  ⟨styleSheet_root_and_attribute_selectors.1 "" (fun _ _ => false) _ _
      (JVal.obj [("c", JVal.str "white")]) (JVal.obj [("c", JVal.str "black")])
      rfl rfl (by decide),
   styleSheet_root_and_attribute_selectors.2 "" (fun _ _ => false) _ _
      "dark" (JVal.obj [("c", JVal.str "black")])
      (by decide) (by simp [themeColorSchemes, jget, lookupKey, jentries])
      (by decide)⟩

/-- Claim C7 counterexample: the claim as stated fails when the active
scheme itself defines a top-level `vars` key — the active-scheme spread at
lines 131-134 replaces the accumulated aggregate with the scheme's parsed
`vars` sub-tree. Here the registry is
`\x7blight: \x7bvars: \x7bx: 1\x7d\x7d\x7d` with `light` active: the context
theme's `vars` is `\x7bx: "var(--vars-x)"\x7d`, not the deep-merged aggregate
`\x7b--vars-x: "1"\x7d`. -/
theorem theme_vars_overwritten_counterexample :
    jget (renderCompute "" (fun _ _ => false)
      { themeProp := JVal.obj [("colorSchemes", JVal.obj
          [("light", JVal.obj [("vars", JVal.obj [("x", JVal.num 1)])])])],
        pfx := "", attrName := "data-mui-color-scheme",
        defaultMode := "light", defaultColorScheme := JVal.str "light" }
      { mode := some "light", systemMode := none, colorScheme := some "light" }).theme
      "vars" ≠
    (jentries (themeColorSchemes (JVal.obj [("colorSchemes", JVal.obj
        [("light", JVal.obj [("vars", JVal.obj [("x", JVal.num 1)])])])]))).foldl
      (fun acc kv => deepmerge acc (cssVarsParser kv.2 "" "" (fun _ _ => false)).vars)
      (renderCompute "" (fun _ _ => false)
        { themeProp := JVal.obj [("colorSchemes", JVal.obj
            [("light", JVal.obj [("vars", JVal.obj [("x", JVal.num 1)])])])],
          pfx := "", attrName := "data-mui-color-scheme",
          defaultMode := "light", defaultColorScheme := JVal.str "light" }
        { mode := some "light", systemMode := none,
          colorScheme := some "light" }).rootVars := by
  decide

/-- Claim C7 (amended): within one render, provided the active (resolved)
color scheme's registry entry does not itself define a top-level `vars` key,
the `vars` aggregate on the theme delivered through context equals the root
theme's parsed variable map deep-merged, in registry iteration order, with
the variable map parsed from every registered color scheme — all schemes
contribute, not only the active one. -/
theorem theme_vars_merges_all_schemes
    (basePfx : String) (skip : List String → JVal → Bool)
    (props : ProviderProps) (hook : SchemeHook)
    (hvars : ∀ kv ∈ jentries (themeColorSchemes props.themeProp),
      (renderCompute basePfx skip props hook).resolvedColorScheme = JVal.str kv.1 →
      "vars" ∉ jkeys kv.2) :
    jget (renderCompute basePfx skip props hook).theme "vars" =
      (jentries (themeColorSchemes props.themeProp)).foldl
        (fun acc kv => deepmerge acc (cssVarsParser kv.2 props.pfx basePfx skip).vars)
        (renderCompute basePfx skip props hook).rootVars := by
  rw [renderCompute_theme_eq, renderCompute_rootVars_eq]
  rw [schemeFold_vars props.pfx basePfx skip props.attrName props.defaultColorScheme
    props.defaultMode
    (resolveColorScheme hook.colorScheme props.defaultMode props.defaultColorScheme)
    hook.mode (jentries (themeColorSchemes props.themeProp))
    { theme := renderTheme0 basePfx skip props, styleSheet := [] }
    (renderTheme0_isObj basePfx skip props)
    (fun kv hkv h1 => hvars kv hkv (by
      rw [renderCompute_resolvedCS_eq]
      exact (jvalEqStr_iff _ _).1 h1))]
  rw [renderTheme0_vars]

/-- Witness for C7 on a concrete two-scheme theme with a root `shape` key. -/
theorem theme_vars_merges_all_schemes_witness :
    jget (renderCompute "" (fun _ _ => false)
      { themeProp := JVal.obj
          [("shape", JVal.obj [("radius", JVal.num 4)]),
           ("colorSchemes", JVal.obj
             [("light", JVal.obj [("c", JVal.str "white")]),
              ("dark", JVal.obj [("c", JVal.str "black")])])],
        pfx := "", attrName := "data-mui-color-scheme",
        defaultMode := "light", defaultColorScheme := JVal.str "light" }
      { mode := some "light", systemMode := none, colorScheme := some "light" }).theme
      "vars" =
      (jentries (themeColorSchemes (JVal.obj
          [("shape", JVal.obj [("radius", JVal.num 4)]),
           ("colorSchemes", JVal.obj
             [("light", JVal.obj [("c", JVal.str "white")]),
              ("dark", JVal.obj [("c", JVal.str "black")])])]))).foldl
        (fun acc kv => deepmerge acc (cssVarsParser kv.2 "" "" (fun _ _ => false)).vars)
        (renderCompute "" (fun _ _ => false)
          { themeProp := JVal.obj
              [("shape", JVal.obj [("radius", JVal.num 4)]),
               ("colorSchemes", JVal.obj
                 [("light", JVal.obj [("c", JVal.str "white")]),
                  ("dark", JVal.obj [("c", JVal.str "black")])])],
            pfx := "", attrName := "data-mui-color-scheme",
            defaultMode := "light", defaultColorScheme := JVal.str "light" }
          { mode := some "light", systemMode := none,
            colorScheme := some "light" }).rootVars :=
  theme_vars_merges_all_schemes "" (fun _ _ => false)
    { themeProp := JVal.obj
        [("shape", JVal.obj [("radius", JVal.num 4)]),
         ("colorSchemes", JVal.obj
           [("light", JVal.obj [("c", JVal.str "white")]),
            ("dark", JVal.obj [("c", JVal.str "black")])])],
      pfx := "", attrName := "data-mui-color-scheme",
      defaultMode := "light", defaultColorScheme := JVal.str "light" }
    { mode := some "light", systemMode := none, colorScheme := some "light" }
    (by decide)

/-- Claim C8: in a render whose resolved color scheme matches a key of the
registry (with unique keys), if the merged theme ends up with a palette
sub-object then that palette's `mode` field equals the current `mode` and its
`colorScheme` field equals the resolved scheme name; when no palette object
exists, no such fields exist either. -/
theorem palette_runtime_mode_fields
    (basePfx : String) (skip : List String → JVal → Bool)
    (props : ProviderProps) (hook : SchemeHook) (rk : String)
    (hnodup : (jkeys (themeColorSchemes props.themeProp)).Nodup)
    (hrcs : (renderCompute basePfx skip props hook).resolvedColorScheme = JVal.str rk)
    (hmem : rk ∈ jkeys (themeColorSchemes props.themeProp)) :
    (∀ pkvs, jget (renderCompute basePfx skip props hook).theme "palette" = JVal.obj pkvs →
      jget (JVal.obj pkvs) "mode" = optToJVal hook.mode ∧
      jget (JVal.obj pkvs) "colorScheme" = JVal.str rk) ∧
    (jtruthy (jget (renderCompute basePfx skip props hook).theme "palette") = false →
      jget (jget (renderCompute basePfx skip props hook).theme "palette") "mode" =
        JVal.undef ∧
      jget (jget (renderCompute basePfx skip props hook).theme "palette") "colorScheme" =
        JVal.undef) := by
  rw [renderCompute_resolvedCS_eq] at hrcs
  constructor
  · intro pkvs hp
    rw [renderCompute_theme_eq] at hp
    rw [jkeys_eq_entries_map] at hmem hnodup
    obtain ⟨kv, hkv_mem, hkv_fst⟩ := List.mem_map.1 hmem
    obtain ⟨pre, post, hsplit⟩ := List.append_of_mem hkv_mem
    rw [hsplit] at hp hnodup
    simp only [List.map_append, List.map_cons] at hnodup
    have hpost_not : kv.1 ∉ post.map Prod.fst := by
      have h2 := (List.nodup_append.1 hnodup).2.1
      exact (List.nodup_cons.1 h2).1
    rw [List.foldl_append, List.foldl_cons] at hp
    set acc1 := pre.foldl
      (schemeStep props.pfx basePfx skip props.attrName props.defaultColorScheme
        props.defaultMode
        (resolveColorScheme hook.colorScheme props.defaultMode props.defaultColorScheme)
        hook.mode)
      { theme := renderTheme0 basePfx skip props, styleSheet := [] } with hacc1
    have hacc1_obj : isObjectVal acc1.theme = true := by
      rw [hacc1]
      exact schemeFold_theme_isObj _ _ _ _ _ _ _ _ _ _ (renderTheme0_isObj basePfx skip props)
    have heq_match : jvalEqStr
        (resolveColorScheme hook.colorScheme props.defaultMode props.defaultColorScheme)
        kv.1 = true := by
      rw [hrcs, hkv_fst]
      simp [jvalEqStr]
    have hpost_ne : ∀ kv2 ∈ post, jvalEqStr
        (resolveColorScheme hook.colorScheme props.defaultMode props.defaultColorScheme)
        kv2.1 = false := by
      intro kv2 hkv2
      rw [hrcs]
      have hne2 : rk ≠ kv2.1 := by
        intro hh
        apply hpost_not
        rw [hkv_fst, hh]
        exact List.mem_map_of_mem Prod.fst hkv2
      simp [jvalEqStr, hne2]
    rw [schemeFold_nonmatch_preserves _ _ _ _ _ _ _ _ _ _ _ (by decide) hpost_ne] at hp
    have := schemeStep_match_palette props.pfx basePfx skip props.attrName
      props.defaultColorScheme props.defaultMode
      (resolveColorScheme hook.colorScheme props.defaultMode props.defaultColorScheme)
      hook.mode acc1 kv heq_match pkvs hp
    rw [hrcs] at this
    exact this
  · intro h
    exact ⟨jget_of_not_truthy _ _ h, jget_of_not_truthy _ _ h⟩

/-- Witness for C8: a dark render over a registry whose schemes carry
palettes; the merged palette holds `mode = "dark"` and
`colorScheme = "dark"`. -/
theorem palette_runtime_mode_fields_witness :
    (∀ pkvs, jget (renderCompute "" (fun _ _ => false)
        { themeProp := JVal.obj [("colorSchemes", JVal.obj
            [("light", JVal.obj [("palette", JVal.obj [("main", JVal.str "white")])]),
             ("dark", JVal.obj [("palette", JVal.obj [("main", JVal.str "black")])])])],
          pfx := "", attrName := "data-mui-color-scheme",
          defaultMode := "light", defaultColorScheme := JVal.str "light" }
        { mode := some "dark", systemMode := none, colorScheme := some "dark" }).theme
        "palette" = JVal.obj pkvs →
      jget (JVal.obj pkvs) "mode" = optToJVal (some "dark") ∧
      jget (JVal.obj pkvs) "colorScheme" = JVal.str "dark") ∧
    (jtruthy (jget (renderCompute "" (fun _ _ => false)
        { themeProp := JVal.obj [("colorSchemes", JVal.obj
            [("light", JVal.obj [("palette", JVal.obj [("main", JVal.str "white")])]),
             ("dark", JVal.obj [("palette", JVal.obj [("main", JVal.str "black")])])])],
          pfx := "", attrName := "data-mui-color-scheme",
          defaultMode := "light", defaultColorScheme := JVal.str "light" }
        { mode := some "dark", systemMode := none, colorScheme := some "dark" }).theme
        "palette") = false →
      jget (jget (renderCompute "" (fun _ _ => false)
        { themeProp := JVal.obj [("colorSchemes", JVal.obj
            [("light", JVal.obj [("palette", JVal.obj [("main", JVal.str "white")])]),
             ("dark", JVal.obj [("palette", JVal.obj [("main", JVal.str "black")])])])],
          pfx := "", attrName := "data-mui-color-scheme",
          defaultMode := "light", defaultColorScheme := JVal.str "light" }
        { mode := some "dark", systemMode := none, colorScheme := some "dark" }).theme
        "palette") "mode" = JVal.undef ∧
      jget (jget (renderCompute "" (fun _ _ => false)
        { themeProp := JVal.obj [("colorSchemes", JVal.obj
            [("light", JVal.obj [("palette", JVal.obj [("main", JVal.str "white")])]),
             ("dark", JVal.obj [("palette", JVal.obj [("main", JVal.str "black")])])])],
          pfx := "", attrName := "data-mui-color-scheme",
          defaultMode := "light", defaultColorScheme := JVal.str "light" }
        { mode := some "dark", systemMode := none, colorScheme := some "dark" }).theme
        "palette") "colorScheme" = JVal.undef) :=
  palette_runtime_mode_fields "" (fun _ _ => false)
    { themeProp := JVal.obj [("colorSchemes", JVal.obj
        [("light", JVal.obj [("palette", JVal.obj [("main", JVal.str "white")])]),
         ("dark", JVal.obj [("palette", JVal.obj [("main", JVal.str "black")])])])],
      pfx := "", attrName := "data-mui-color-scheme",
      defaultMode := "light", defaultColorScheme := JVal.str "light" }
    { mode := some "dark", systemMode := none, colorScheme := some "dark" }
    "dark" (by decide) (by decide) (by decide)

/-- Claim C10 counterexample: the pass-through half of the claim fails when
the active scheme itself defines a top-level `components` key — the
active-scheme spread at lines 131-134 replaces the original `components`
object with the scheme's parsed copy. Here
`themeProp.components = \x7bMuiTab: 1\x7d` but the merged theme carries
`\x7bx: "var(--components-x)"\x7d`. -/
theorem components_passthrough_counterexample :
    jget (renderCompute "" (fun _ _ => false)
      { themeProp := JVal.obj
          [("components", JVal.obj [("MuiTab", JVal.num 1)]),
           ("colorSchemes", JVal.obj
             [("light", JVal.obj [("components", JVal.obj [("x", JVal.num 2)])])])],
        pfx := "", attrName := "data-mui-color-scheme",
        defaultMode := "light", defaultColorScheme := JVal.str "light" }
      { mode := some "light", systemMode := none, colorScheme := some "light" }).theme
      "components" ≠
    jget (JVal.obj
      [("components", JVal.obj [("MuiTab", JVal.num 1)]),
       ("colorSchemes", JVal.obj
         [("light", JVal.obj [("components", JVal.obj [("x", JVal.num 2)])])])])
      "components" := by
  decide

/-- Claim C10 (amended): the `colorSchemes` and `components` sub-objects are
removed before the root variable parse — the root CSS and variable map depend
only on the remaining keys, so no variables are generated from those two
sub-trees — and, provided the active scheme's registry entry does not itself
define a top-level `components` or `colorSchemes` key, both are passed
through unchanged into the merged theme delivered to descendants. -/
theorem colorSchemes_components_isolated :
    (∀ (basePfx : String) (skip : List String → JVal → Bool)
      (props : ProviderProps) (hook : SchemeHook) (other : JVal),
      restThemeOf props.themeProp = restThemeOf other →
      (renderCompute basePfx skip props hook).rootCss =
        (renderCompute basePfx skip { props with themeProp := other } hook).rootCss ∧
      (renderCompute basePfx skip props hook).rootVars =
        (renderCompute basePfx skip { props with themeProp := other } hook).rootVars) ∧
    (∀ (basePfx : String) (skip : List String → JVal → Bool)
      (props : ProviderProps) (hook : SchemeHook),
      (∀ kv ∈ jentries (themeColorSchemes props.themeProp),
        (renderCompute basePfx skip props hook).resolvedColorScheme = JVal.str kv.1 →
        "components" ∉ jkeys kv.2 ∧ "colorSchemes" ∉ jkeys kv.2) →
      (jget props.themeProp "components" ≠ JVal.undef →
        jget (renderCompute basePfx skip props hook).theme "components" =
          jget props.themeProp "components") ∧
      (jget props.themeProp "colorSchemes" ≠ JVal.undef →
        jget (renderCompute basePfx skip props hook).theme "colorSchemes" =
          jget props.themeProp "colorSchemes")) := by
  constructor
  · intro basePfx skip props hook other h
    rw [renderCompute_rootCss_eq, renderCompute_rootCss_eq,
      renderCompute_rootVars_eq, renderCompute_rootVars_eq]
    constructor <;> rw [h]
  · intro basePfx skip props hook h
    constructor
    · intro hne
      rw [renderCompute_theme_eq]
      rw [schemeFold_preserves_key _ _ _ _ _ _ _ _ _ _ _ (by decide) (by decide)
        (fun kv hkv h1 => (h kv hkv (by
          rw [renderCompute_resolvedCS_eq]
          exact (jvalEqStr_iff _ _).1 h1)).1)]
      rw [renderTheme0_components]
      simp [themeComponents, hne]
    · intro hne
      rw [renderCompute_theme_eq]
      rw [schemeFold_preserves_key _ _ _ _ _ _ _ _ _ _ _ (by decide) (by decide)
        (fun kv hkv h1 => (h kv hkv (by
          rw [renderCompute_resolvedCS_eq]
          exact (jvalEqStr_iff _ _).1 h1)).2)]
      rw [renderTheme0_colorSchemes]
      simp [themeColorSchemes, hne]

/-- Witness for C10: root variable independence from the `colorSchemes`
sub-tree, and pass-through of `components` and `colorSchemes` on a concrete
theme. -/
theorem colorSchemes_components_isolated_witness :
    ((renderCompute "" (fun _ _ => false)
      { themeProp := JVal.obj
          [("fontSize", JVal.num 12),
           ("colorSchemes", JVal.obj [("light", JVal.obj [("c", JVal.str "white")])]),
           ("components", JVal.obj [("MuiTab", JVal.obj [])])],
        pfx := "", attrName := "data-mui-color-scheme",
        defaultMode := "light", defaultColorScheme := JVal.str "light" }
      { mode := none, systemMode := none, colorScheme := none }).rootCss =
      (renderCompute "" (fun _ _ => false)
        { themeProp := JVal.obj [("fontSize", JVal.num 12)],
          pfx := "", attrName := "data-mui-color-scheme",
          defaultMode := "light", defaultColorScheme := JVal.str "light" }
        { mode := none, systemMode := none, colorScheme := none }).rootCss ∧
     (renderCompute "" (fun _ _ => false)
      { themeProp := JVal.obj
          [("fontSize", JVal.num 12),
           ("colorSchemes", JVal.obj [("light", JVal.obj [("c", JVal.str "white")])]),
           ("components", JVal.obj [("MuiTab", JVal.obj [])])],
        pfx := "", attrName := "data-mui-color-scheme",
        defaultMode := "light", defaultColorScheme := JVal.str "light" }
      { mode := none, systemMode := none, colorScheme := none }).rootVars =
      (renderCompute "" (fun _ _ => false)
        { themeProp := JVal.obj [("fontSize", JVal.num 12)],
          pfx := "", attrName := "data-mui-color-scheme",
          defaultMode := "light", defaultColorScheme := JVal.str "light" }
        { mode := none, systemMode := none, colorScheme := none }).rootVars) ∧
    ((jget (JVal.obj
          [("fontSize", JVal.num 12),
           ("colorSchemes", JVal.obj [("light", JVal.obj [("c", JVal.str "white")])]),
           ("components", JVal.obj [("MuiTab", JVal.obj [])])]) "components" ≠ JVal.undef →
      jget (renderCompute "" (fun _ _ => false)
        { themeProp := JVal.obj
            [("fontSize", JVal.num 12),
             ("colorSchemes", JVal.obj [("light", JVal.obj [("c", JVal.str "white")])]),
             ("components", JVal.obj [("MuiTab", JVal.obj [])])],
          pfx := "", attrName := "data-mui-color-scheme",
          defaultMode := "light", defaultColorScheme := JVal.str "light" }
        { mode := none, systemMode := none, colorScheme := none }).theme "components" =
        jget (JVal.obj
          [("fontSize", JVal.num 12),
           ("colorSchemes", JVal.obj [("light", JVal.obj [("c", JVal.str "white")])]),
           ("components", JVal.obj [("MuiTab", JVal.obj [])])]) "components") ∧
     (jget (JVal.obj
          [("fontSize", JVal.num 12),
           ("colorSchemes", JVal.obj [("light", JVal.obj [("c", JVal.str "white")])]),
           ("components", JVal.obj [("MuiTab", JVal.obj [])])]) "colorSchemes" ≠ JVal.undef →
      jget (renderCompute "" (fun _ _ => false)
        { themeProp := JVal.obj
            [("fontSize", JVal.num 12),
             ("colorSchemes", JVal.obj [("light", JVal.obj [("c", JVal.str "white")])]),
             ("components", JVal.obj [("MuiTab", JVal.obj [])])],
          pfx := "", attrName := "data-mui-color-scheme",
          defaultMode := "light", defaultColorScheme := JVal.str "light" }
        { mode := none, systemMode := none, colorScheme := none }).theme "colorSchemes" =
        jget (JVal.obj
          [("fontSize", JVal.num 12),
           ("colorSchemes", JVal.obj [("light", JVal.obj [("c", JVal.str "white")])]),
           ("components", JVal.obj [("MuiTab", JVal.obj [])])]) "colorSchemes")) :=
  ⟨colorSchemes_components_isolated.1 "" (fun _ _ => false)
      { themeProp := JVal.obj
          [("fontSize", JVal.num 12),
           ("colorSchemes", JVal.obj [("light", JVal.obj [("c", JVal.str "white")])]),
           ("components", JVal.obj [("MuiTab", JVal.obj [])])],
        pfx := "", attrName := "data-mui-color-scheme",
        defaultMode := "light", defaultColorScheme := JVal.str "light" }
      { mode := none, systemMode := none, colorScheme := none }
      (JVal.obj [("fontSize", JVal.num 12)]) (by decide),
   colorSchemes_components_isolated.2 "" (fun _ _ => false)
      { themeProp := JVal.obj
          [("fontSize", JVal.num 12),
           ("colorSchemes", JVal.obj [("light", JVal.obj [("c", JVal.str "white")])]),
           ("components", JVal.obj [("MuiTab", JVal.obj [])])],
        pfx := "", attrName := "data-mui-color-scheme",
        defaultMode := "light", defaultColorScheme := JVal.str "light" }
      { mode := none, systemMode := none, colorScheme := none }
      (by decide)⟩

end MuiCssVars
